import Mathlib

/-!
Verification development for the LABEMATEAI-assister repository.

We shallowly embed the parts of the code that the claims are about:

* `src/routes.py`, `fluid_calculate` (lines 100-162): parsing and validation
  of the two reading sequences, dispatch to the fluid-mechanics pipeline,
  activity logging, persistence of a `Calculation` record, and the JSON
  response.  Python values arriving from `request.get_json()` are modelled by
  `PVal`, Python's `float(·)` conversion by `pyFloat`, subscripting by
  `pyIndex`, and the exceptions caught at routes.py lines 125 by `PyExc`.
  The fluid-mechanics pipeline `process_experiment_data` lives in
  `fluid_mechanics.py`, which is not part of the available sources, so
  `fluid_calculate` is parameterised over it; the spec-modelled pipeline
  appears further below.

* `src/chatbot.py`, `LabMateChatbot`: the keyword knowledge base, intent
  classification (`_classify_intent`) and handler dispatch
  (`process_message`).

* The data-reduction pipeline of `fluid_mechanics.py` (absent from the
  available sources) is modelled from the spec where a claim depends on it:
  discharge-coefficient estimation with `Vp = 0` exclusion, the
  least-squares fitter, constants merging, and the overall pipeline as a
  pure function.
-/

/-! ## Python floats and values (routes.py input model) -/

/-- A Python `float` as it matters to the validation code: a finite value
(modelled exactly by a rational), positive or negative infinity, or NaN. -/
inductive PFloat : Type
  | finite (q : ℚ)
  | inf
  | negInf
  | nan
  deriving DecidableEq, Repr

/-- The exceptions caught by the `except (ValueError, TypeError, IndexError)`
clause at routes.py line 125. -/
inductive PyExc : Type
  | valueError
  | typeError
  | indexError
  deriving DecidableEq, Repr

/-- A Python value as it can appear inside the JSON-decoded reading lists:
a number (Python's json module also produces `inf`/`nan` floats for
`Infinity`/`NaN` tokens), a string, a boolean, `None`, or a nested list. -/
inductive PVal : Type
  | num (f : PFloat)
  | str (s : String)
  | bool (b : Bool)
  | null
  | list (vs : List PVal)

/-- Digits-with-optional-point decimal parser used to model Python's
`float(str)`: accepts `digits`, `digits.digits`, `digits.` and `.digits`
(exponents and underscores are outside the modelled fragment). Returns the
numerator and the power-of-ten denominator exponent. -/
def parseDecimalChars : List Char → Option (ℕ × ℕ)
  | [] => none
  | cs =>
    let intPart := cs.takeWhile (·.isDigit)
    let rest := cs.dropWhile (·.isDigit)
    match rest with
    | [] => if intPart.isEmpty then none
            else some (intPart.foldl (fun a c => a * 10 + (c.toNat - 48)) 0, 0)
    | '.' :: frac =>
      if frac.all (·.isDigit) ∧ ¬(intPart.isEmpty ∧ frac.isEmpty) then
        some ((intPart ++ frac).foldl (fun a c => a * 10 + (c.toNat - 48)) 0, frac.length)
      else none
    | _ => none

/-- The sign-stripped body of a Python float string: `inf`/`infinity`/`nan`
(case-insensitively) or a decimal literal; anything else raises
`ValueError`. -/
def parseSigned (neg : Bool) (body : List Char) : Except PyExc PFloat :=
  if body.map Char.toLower = "inf".toList ∨ body.map Char.toLower = "infinity".toList then
    Except.ok (if neg then PFloat.negInf else PFloat.inf)
  else if body.map Char.toLower = "nan".toList then
    Except.ok PFloat.nan
  else
    match parseDecimalChars body with
    | some (n, e) =>
        Except.ok (PFloat.finite ((if neg then -(n : ℚ) else (n : ℚ)) / (10 : ℚ) ^ e))
    | none => Except.error PyExc.valueError

/-- Model of Python `float(s)` on strings: strips surrounding spaces, takes
an optional sign, then parses the body. -/
def parsePyFloat (s : String) : Except PyExc PFloat :=
  match (s.toList.dropWhile (· = ' ')).reverse.dropWhile (· = ' ') |>.reverse with
  | '-' :: rest => parseSigned true rest
  | '+' :: rest => parseSigned false rest
  | rest => parseSigned false rest

/-- Model of Python's `float(x)` builtin on the modelled values: floats pass
through, booleans convert to `1.0`/`0.0`, strings are parsed, and `None` or a
list raises `TypeError`. -/
def pyFloat : PVal → Except PyExc PFloat
  | PVal.num f => Except.ok f
  | PVal.bool b => Except.ok (PFloat.finite (if b then 1 else 0))
  | PVal.str s => parsePyFloat s
  | PVal.null => Except.error PyExc.typeError
  | PVal.list _ => Except.error PyExc.typeError

/-- Model of Python subscripting `r[i]`: lists and strings index positionally
(raising `IndexError` past the end); numbers, booleans and `None` raise
`TypeError` (not subscriptable). -/
def pyIndex : PVal → ℕ → Except PyExc PVal
  | PVal.list vs, i =>
    match vs.get? i with
    | some v => Except.ok v
    | none => Except.error PyExc.indexError
  | PVal.str s, i =>
    match s.toList.get? i with
    | some c => Except.ok (PVal.str (String.mk [c]))
    | none => Except.error PyExc.indexError
  | PVal.num _, _ => Except.error PyExc.typeError
  | PVal.bool _, _ => Except.error PyExc.typeError
  | PVal.null, _ => Except.error PyExc.typeError

/-- One element of the comprehension at routes.py lines 123-124:
`(float(r[0]), float(r[1]))`, with Python's left-to-right evaluation order. -/
def convReading (r : PVal) : Except PyExc (PFloat × PFloat) :=
  match pyIndex r 0 with
  | Except.error e => Except.error e
  | Except.ok a =>
    match pyFloat a with
    | Except.error e => Except.error e
    | Except.ok x =>
      match pyIndex r 1 with
      | Except.error e => Except.error e
      | Except.ok b =>
        match pyFloat b with
        | Except.error e => Except.error e
        | Except.ok y => Except.ok (x, y)

/-- The whole comprehension `[(float(r[0]), float(r[1])) for r in readings]`:
elements are converted in order and the first exception propagates. -/
def convReadings : List PVal → Except PyExc (List (PFloat × PFloat))
  | [] => Except.ok []
  | r :: rs =>
    match convReading r with
    | Except.error e => Except.error e
    | Except.ok p =>
      match convReadings rs with
      | Except.error e => Except.error e
      | Except.ok ps => Except.ok (p :: ps)

deriving instance DecidableEq for Except

/-! ## routes.py `fluid_calculate` -/

/-- A row of `result['results']` as it is echoed through the JSON response
(the exact row shape is produced by the absent `fluid_mechanics.py`, so we
keep it abstract as index plus three numbers). -/
def RRow : Type := ℕ × PFloat × PFloat × PFloat

instance : DecidableEq RRow := by unfold RRow; infer_instance

/-- The dictionary returned by `process_experiment_data` as consumed by
routes.py lines 147 and 152-159. -/
structure PipeResult : Type where
  results : List RRow
  mean_cv : PFloat
  model_calculation : String
  graph_base64 : String
  pdf_base64 : String
  deriving DecidableEq

/-- The JSON body produced by `fluid_calculate`: either the success payload
of routes.py lines 152-159 or the `{'success': False, 'error': msg}` body
produced on every failure path. -/
inductive FCResponse : Type
  | ok (results : List RRow) (mean_cv : PFloat)
      (model_calculation graph_base64 pdf_base64 : String)
  | err (msg : String)
  deriving DecidableEq

/-- A `Calculation` ORM record as constructed at routes.py lines 141-148. -/
structure Calculation : Type where
  user_id : ℕ
  reagent : String
  formula : String
  molarity : ℚ
  volume : ℚ
  mass_needed : PFloat
  deriving DecidableEq

/-- An `ActivityLog` ORM record as constructed by `log_activity`
(routes.py lines 12-20). -/
structure ActivityLog : Type where
  user_id : ℕ
  action_type : String
  description : String
  deriving DecidableEq

/-- The observable outcome of one `fluid_calculate` request: the JSON
response together with the database records committed during the request. -/
structure FCOutcome : Type where
  response : FCResponse
  logs : List ActivityLog
  calculations : List Calculation
  deriving DecidableEq

/-- The type of the `process_experiment_data` collaborator
(`fluid_mechanics.py` is not among the available sources): converted orifice
readings, converted pitot readings, graph parameters, optional constants
override; an exception becomes `Except.error` with its message. -/
def Pipeline : Type :=
  List (PFloat × PFloat) → List (PFloat × PFloat) → List String →
    Option (List (String × ℚ)) → Except String PipeResult

/-- Shallow embedding of `fluid_calculate` (routes.py lines 100-162), after
the session check, parameterised by the pipeline.  `data_orifice` /
`data_pitot` model `data.get(..., [])` (`none` = key absent), `graphParams`
models `data.get('graph_params', ['V0', 'Vp'])`, `constants` models
`data.get('constants', None)`. -/
def fluid_calculate (pipeline : Pipeline) (data_orifice data_pitot : Option (List PVal))
    (graphParams : Option (List String)) (constants : Option (List (String × ℚ)))
    (userId : ℕ) : FCOutcome :=
  let orifice := data_orifice.getD []
  let pitot := data_pitot.getD []
  if orifice.isEmpty || pitot.isEmpty then
    ⟨FCResponse.err "No readings provided", [], []⟩
  else if orifice.length ≠ pitot.length then
    ⟨FCResponse.err "Mismatched number of orifice and pitot readings", [], []⟩
  else
    match convReadings orifice with
    | Except.error _ =>
        ⟨FCResponse.err "Invalid reading format. All values must be numbers.", [], []⟩
    | Except.ok co =>
      match convReadings pitot with
      | Except.error _ =>
          ⟨FCResponse.err "Invalid reading format. All values must be numbers.", [], []⟩
      | Except.ok cp =>
        match pipeline co cp (graphParams.getD ["V0", "Vp"]) constants with
        | Except.error e => ⟨FCResponse.err e, [], []⟩
        | Except.ok res =>
          ⟨FCResponse.ok res.results res.mean_cv res.model_calculation
             res.graph_base64 res.pdf_base64,
           [⟨userId, "Fluid Calculation",
             "Pitot Tube experiment with " ++ toString co.length ++ " readings"⟩],
           [⟨userId, "Pitot Tube Experiment", "Cv = V0/Vp", 0, 0, res.mean_cv⟩]⟩

/-! ## chatbot.py `LabMateChatbot` -/

/-- The keyword knowledge base of `LabMateChatbot.__init__` (chatbot.py
lines 9-28), in Python dict insertion order. -/
def knowledge_base : List (String × List String) :=
  [("greetings", ["hello", "hi", "hey", "good morning", "good afternoon", "good evening"]),
   ("calculations", ["calculate", "how much", "mass", "molarity", "volume", "concentration"]),
   ("chemicals", ["chemical", "reagent", "compound", "substance", "molecule"]),
   ("safety", ["safety", "hazard", "dangerous", "toxic", "corrosive", "flammable"]),
   ("experiments", ["experiment", "procedure", "protocol", "method", "lab work"]),
   ("help", ["help", "what can you do", "assist", "support", "guide"])]

/-- Python's `keyword in message` substring test. -/
def containsSub (message keyword : String) : Bool :=
  decide (keyword.toList <:+: message.toList)

/-- Python's `message.lower()` (over the character list, so that it reduces
definitionally). -/
def pyLower (s : String) : String := String.mk (s.toList.map Char.toLower)

/-- `LabMateChatbot._classify_intent` (chatbot.py lines 81-86): the first
knowledge-base key one of whose keywords occurs in the message, else
`'default'`. -/
def classify_intent (message : String) : String :=
  match knowledge_base.find? (fun ik => ik.2.any (fun kw => containsSub message kw)) with
  | some ik => ik.1
  | none => "default"

/-- Which handler `process_message` dispatches to. -/
inductive Handler : Type
  | calculation
  | chemicalInfo
  | safetyInfo
  | experimentHelp
  | greeting
  | help
  | defaultResponse
  deriving DecidableEq, Repr

/-- `LabMateChatbot.process_message` (chatbot.py lines 58-79), abstracted to
which handler produces the reply: the message is lower-cased, classified, and
the intent is compared against the singular names. -/
def process_message (message : String) : Handler :=
  let intent := classify_intent (pyLower message)
  if intent = "calculation" then Handler.calculation
  else if intent = "chemical_info" then Handler.chemicalInfo
  else if intent = "safety" then Handler.safetyInfo
  else if intent = "experiment" then Handler.experimentHelp
  else if intent = "greeting" then Handler.greeting
  else if intent = "help" then Handler.help
  else Handler.defaultResponse

/-! ## Spec-modelled fluid-mechanics pipeline

`fluid_mechanics.py` (`process_experiment_data` and its stages) is not among
the available sources; the following definitions are modelled from the spec
(sections 3 and 4) and are so marked. -/

/-- Modelled from the spec: `PhysicalConstants` (spec section 3) — keys `g`,
`rho`, `Cd_orifice`, `A_ratio`; `fluid_mechanics.py` is absent. -/
structure PhysicalConstants : Type where
  g : ℚ
  rho : ℚ
  Cd_orifice : ℚ
  A_ratio : ℚ
  deriving DecidableEq, Repr

/-- Modelled from the spec: the default constants configuration
`{g: 9.81, rho: 1000.0, Cd_orifice: 0.61, A_ratio: <orifice/pipe area
ratio>}`; the spec gives no numeric default for `A_ratio`, so it stays a
parameter. -/
def defaultConstants (a_ratio : ℚ) : PhysicalConstants :=
  ⟨981 / 100, 1000, 61 / 100, a_ratio⟩

/-- Modelled from the spec: "Caller may supply an override map; unspecified
keys fall back to defaults" (spec section 3); `fluid_mechanics.py` is
absent. -/
def mergeConstants (defaults : PhysicalConstants)
    (override : Option (List (String × ℚ))) : PhysicalConstants :=
  match override with
  | none => defaults
  | some m =>
    { g := ((m.lookup "g").getD defaults.g),
      rho := ((m.lookup "rho").getD defaults.rho),
      Cd_orifice := ((m.lookup "Cd_orifice").getD defaults.Cd_orifice),
      A_ratio := ((m.lookup "A_ratio").getD defaults.A_ratio) }

/-- Modelled from the spec: a `CalibrationPoint`'s velocity components
`{orifice_velocity V0, pitot_velocity Vp}` (spec section 3), polymorphic so
that statements can be made exactly over `ℚ` and the spec-modelled pipeline
can use `ℝ`. -/
structure CalPoint (α : Type) : Type where
  v0 : α
  vp : α
  deriving DecidableEq, Repr

/-- Modelled from the spec: the exclusion loop of the Discharge Coefficient
Estimator (spec section 4.3) — walk the points, exclude any point with
`Vp_i == 0` while counting exclusions, and keep the remaining points in
order. -/
def splitPoints {α : Type} [Zero α] [DecidableEq α] :
    List (CalPoint α) → List (CalPoint α) × ℕ
  | [] => ([], 0)
  | p :: ps =>
    let (inc, ex) := splitPoints ps
    if p.vp = 0 then (inc, ex + 1) else (p :: inc, ex)

/-- Modelled from the spec: the Discharge Coefficient Estimator (spec
section 4.3) — `cv_i = V0_i / Vp_i` over the non-excluded points, failing
with `InsufficientDataError` when every point was excluded, otherwise
returning the arithmetic mean of the `cv_i` together with the exclusion
count. -/
def estimateCv {α : Type} [Field α] [DecidableEq α] (pts : List (CalPoint α)) :
    Except String (α × ℕ) :=
  let (inc, ex) := splitPoints pts
  if inc.isEmpty then Except.error "InsufficientDataError"
  else Except.ok (((inc.map (fun p => p.v0 / p.vp)).sum) / (inc.length : α), ex)

/-- Modelled from the spec: the Regression Fitter (spec section 4.4) —
closed-form least squares `V0 = slope * Vp + intercept` over the given
(non-excluded) points with `x = Vp`, `y = V0`, failing with
`DegenerateFitError` when the `Vp` values have zero variance, and
`r_squared = 1 - SS_res / SS_tot`. -/
def fitLine {α : Type} [Field α] [DecidableEq α] (pts : List (CalPoint α)) :
    Except String (α × α × α) :=
  let n : α := (pts.length : α)
  let xbar := (pts.map (fun p => p.vp)).sum / n
  let ybar := (pts.map (fun p => p.v0)).sum / n
  let sxx := (pts.map (fun p => (p.vp - xbar) ^ 2)).sum
  let sxy := (pts.map (fun p => (p.vp - xbar) * (p.v0 - ybar))).sum
  if sxx = 0 then Except.error "DegenerateFitError"
  else
    let slope := sxy / sxx
    let intercept := ybar - slope * xbar
    let ssres := (pts.map (fun p => (p.v0 - (slope * p.vp + intercept)) ^ 2)).sum
    let sstot := (pts.map (fun p => (p.v0 - ybar) ^ 2)).sum
    Except.ok (slope, intercept, 1 - ssres / sstot)

/-- Modelled from the spec: the orifice-meter velocity
`V0_i = Cd_orifice * sqrt(2 * g * orifice_raw_i / (1 - A_ratio²))` (spec
section 4.2), with the radicand clamped at `0` per the stated noise
policy. -/
noncomputable def orificeVelocity (c : PhysicalConstants) (raw : ℚ) : ℝ :=
  (c.Cd_orifice : ℝ) * Real.sqrt (max ((2 * c.g * raw / (1 - c.A_ratio ^ 2) : ℚ) : ℝ) 0)

/-- Modelled from the spec: the Pitot-tube velocity
`Vp_i = sqrt(2 * pitot_raw_i / rho)` (spec section 4.2), with the radicand
clamped at `0` per the stated noise policy. -/
noncomputable def pitotVelocity (c : PhysicalConstants) (raw : ℚ) : ℝ :=
  Real.sqrt (max ((2 * raw / c.rho : ℚ) : ℝ) 0)

/-- Modelled from the spec: the terminal `ExperimentReport` aggregate (spec
section 3) up to artifact encoding — the renderer and report assembler are
deterministic functions of exactly these fields plus the labels (spec
sections 4.5-4.6), so the binary artifacts are modelled by applying an
arbitrary (fixed) rendering function to this record. -/
structure ExperimentReportM : Type where
  points : List (CalPoint ℝ)
  mean_cv : ℝ
  excluded : ℕ
  slope : ℝ
  intercept : ℝ
  r_squared : ℝ
  labels : List String

/-- Modelled from the spec: the `equation_text` of section 4.4, built from
the fitted coefficients by a fixed numeric formatter `fmt` ("reproducible
byte-for-byte given the same floats"). -/
def equationText (fmt : ℝ → String) (slope intercept : ℝ) : String :=
  "V0 = " ++ fmt slope ++ "*Vp + " ++ fmt intercept

/-- Modelled from the spec: `process_experiment_data` of the absent
`fluid_mechanics.py` as the linear pipeline of spec section 2 — validate,
derive per-reading velocities (spec section 4.2; the spec does not say how
the two-component raw readings reduce to the scalar differentials, so the
first component of each reading is used), estimate the discharge
coefficient (section 4.3), and fit the calibration line over the
non-excluded points (section 4.4). -/
noncomputable def process_experiment_data (orifice pitot : List (ℚ × ℚ))
    (labels : List String) (override : Option (List (String × ℚ)))
    (a_ratio : ℚ) : Except String ExperimentReportM :=
  if orifice.isEmpty ∨ pitot.isEmpty ∨ orifice.length ≠ pitot.length then
    Except.error "ValidationError"
  else
    let c := mergeConstants (defaultConstants a_ratio) override
    let pts : List (CalPoint ℝ) :=
      (orifice.zip pitot).map
        (fun op => ⟨orificeVelocity c op.1.1, pitotVelocity c op.2.1⟩)
    match estimateCv pts with
    | Except.error e => Except.error e
    | Except.ok (m, ex) =>
      match fitLine (splitPoints pts).1 with
      | Except.error e => Except.error e
      | Except.ok (s, i, r2) => Except.ok ⟨pts, m, ex, s, i, r2, labels⟩

/-! ## Theorems -/

/-- The estimator's exclusion loop keeps exactly the points with `Vp ≠ 0`,
in order, and counts exactly the points with `Vp = 0`. -/
theorem splitPoints_eq {α : Type} [Zero α] [DecidableEq α]
    (pts : List (CalPoint α)) :
    splitPoints pts =
      (pts.filter (fun p => p.vp ≠ 0), (pts.filter (fun p => p.vp = 0)).length) := by
  induction pts with
  | nil => simp [splitPoints]
  | cons p ps ih =>
    simp only [splitPoints, ih]
    by_cases h : p.vp = 0 <;> simp [List.filter_cons, h]

/-- C1: for every point list in which not every point has `Vp_i = 0`, the
estimator succeeds, excludes exactly the points with `Vp_i = 0` (returning
their count), and returns the arithmetic mean of `cv_i = V0_i / Vp_i` over
exactly the non-excluded points. -/
theorem estimator_mean_cv_correct (pts : List (CalPoint ℚ))
    (hnz : ¬ ∀ p ∈ pts, p.vp = 0) :
    estimateCv pts =
      Except.ok
        ((((pts.filter (fun p => p.vp ≠ 0)).map (fun p => p.v0 / p.vp)).sum)
            / (((pts.filter (fun p => p.vp ≠ 0)).length : ℚ)),
          (pts.filter (fun p => p.vp = 0)).length) := by
  push_neg at hnz
  obtain ⟨p, hp, hvp⟩ := hnz
  have hmem : p ∈ pts.filter (fun p => p.vp ≠ 0) :=
    List.mem_filter.2 ⟨hp, by simpa using hvp⟩
  have hne : pts.filter (fun p => p.vp ≠ 0) ≠ [] := List.ne_nil_of_mem hmem
  unfold estimateCv
  rw [splitPoints_eq]
  simp [hne]
  exact ⟨p, hp, hvp⟩

/-- Witness for C1 at `[(V0,Vp)] = [(1,2),(3,0),(4,2)]`: the point with
`Vp = 0` is excluded (count 1) and `mean_cv = ((1/2) + 2) / 2 = 5/4`. -/
theorem estimator_mean_cv_correct_witness :
    (¬ ∀ p ∈ ([⟨1, 2⟩, ⟨3, 0⟩, ⟨4, 2⟩] : List (CalPoint ℚ)), p.vp = 0) ∧
      estimateCv ([⟨1, 2⟩, ⟨3, 0⟩, ⟨4, 2⟩] : List (CalPoint ℚ)) =
        Except.ok ((5 / 4 : ℚ), 1) :=
  ⟨by decide,
   by
    have h := estimator_mean_cv_correct ([⟨1, 2⟩, ⟨3, 0⟩, ⟨4, 2⟩] : List (CalPoint ℚ))
      (by decide)
    rw [h]
    norm_num⟩

/-- `_classify_intent` only ever returns a knowledge-base key (a plural
name) or `'default'`. -/
theorem classify_intent_mem (m : String) :
    classify_intent m ∈
      (["greetings", "calculations", "chemicals", "safety", "experiments",
        "help", "default"] : List String) := by
  unfold classify_intent
  rcases h : knowledge_base.find? (fun ik => ik.2.any (fun kw => containsSub m kw)) with _ | ik
  · rw [h]; simp
  · rw [h]
    have hmem := List.mem_of_find?_eq_some h
    simp only [knowledge_base, List.mem_cons, List.not_mem_nil, or_false] at hmem
    rcases hmem with rfl | rfl | rfl | rfl | rfl | rfl <;> simp

/-- C9: `process_message` compares the plural intents returned by
`_classify_intent` against singular names, so for every input message only
the safety, help and default handlers are reachable; any message whose
classified intent is one of the plural keys `'greetings'`,
`'calculations'`, `'chemicals'`, `'experiments'` falls through to the
default response, and the safety and help handlers are reachable on
concrete inputs. -/
theorem chatbot_singular_plural_mismatch :
    (∀ msg : String,
        process_message msg = Handler.safetyInfo ∨ process_message msg = Handler.help ∨
          process_message msg = Handler.defaultResponse) ∧
    (∀ msg : String,
        classify_intent (pyLower msg) ∈
            (["greetings", "calculations", "chemicals", "experiments"] : List String) →
          process_message msg = Handler.defaultResponse) ∧
    process_message "hello" = Handler.defaultResponse ∧
    process_message "please calculate the mass" = Handler.defaultResponse ∧
    process_message "which chemical is this" = Handler.defaultResponse ∧
    process_message "plan an experiment" = Handler.defaultResponse ∧
    process_message "safety" = Handler.safetyInfo ∧
    process_message "help" = Handler.help := by
  refine ⟨?_, ?_, by decide, by decide, by decide, by decide, by decide, by decide⟩
  · intro msg
    have h := classify_intent_mem (pyLower msg)
    simp only [List.mem_cons, List.not_mem_nil, or_false] at h
    unfold process_message
    rcases h with h | h | h | h | h | h | h <;> rw [h] <;> simp
  · intro msg h
    simp only [List.mem_cons, List.not_mem_nil, or_false] at h
    unfold process_message
    rcases h with h | h | h | h <;> rw [h] <;> simp

/-- Witness for C9: the implication branch applied at the concrete message
`"hello"`, whose classified intent is the plural key `'greetings'`. -/
theorem chatbot_singular_plural_mismatch_witness :
    process_message "hello" = Handler.defaultResponse :=
  chatbot_singular_plural_mismatch.2.1 "hello" (by decide)

/-- C2: whenever either reading sequence is empty or the lengths differ,
`fluid_calculate` returns a single error response with no results and
persists no records, and the outcome is the same for every pipeline — no
computation is attempted. -/
theorem fluid_calculate_validation_short_circuit
    (o p : Option (List PVal)) (gp : Option (List String))
    (c : Option (List (String × ℚ))) (u : ℕ)
    (h : o.getD [] = [] ∨ p.getD [] = [] ∨
         (o.getD []).length ≠ (p.getD []).length) :
    ∃ m, ∀ pl : Pipeline,
      fluid_calculate pl o p gp c u = ⟨FCResponse.err m, [], []⟩ := by
  by_cases ho : o.getD [] = []
  · exact ⟨"No readings provided", fun pl => by unfold fluid_calculate; simp [ho]⟩
  by_cases hp : p.getD [] = []
  · exact ⟨"No readings provided", fun pl => by unfold fluid_calculate; simp [hp]⟩
  have hl : (o.getD []).length ≠ (p.getD []).length := by
    rcases h with h | h | h
    · exact absurd h ho
    · exact absurd h hp
    · exact h
  exact ⟨"Mismatched number of orifice and pitot readings",
    fun pl => by unfold fluid_calculate; simp [ho, hp, hl]⟩

/-- Witness for C2: three orifice readings against two pitot readings give
the same record-free error outcome for two different pipelines. -/
theorem fluid_calculate_validation_short_circuit_witness :
    ∃ m, ∀ pl : Pipeline,
      fluid_calculate pl
        (some [PVal.null, PVal.null, PVal.null]) (some [PVal.null, PVal.null])
        none none 7 = ⟨FCResponse.err m, [], []⟩ :=
  fluid_calculate_validation_short_circuit
    (some [PVal.null, PVal.null, PVal.null]) (some [PVal.null, PVal.null])
    none none 7 (by simp)

/-- C5: if any stage fails — validation (empty input, mismatched lengths, a
failing conversion) or the pipeline collaborator (estimation, fitting,
rendering, report assembly, all of which surface as an exception from
`process_experiment_data`) — the caller receives a single error body.  The
`err` response constructor carries only the message, so the error response
contains none of `results`, `mean_cv`, `model_calculation`, `graph_base64`,
`pdf_base64`; no records are persisted either. -/
theorem fluid_calculate_failure_error_only (pl : Pipeline)
    (o p : Option (List PVal)) (gp : Option (List String))
    (c : Option (List (String × ℚ))) (u : ℕ)
    (h : o.getD [] = [] ∨ p.getD [] = [] ∨
         (o.getD []).length ≠ (p.getD []).length ∨
         (∃ e, convReadings (o.getD []) = Except.error e) ∨
         (∃ e, convReadings (p.getD []) = Except.error e) ∨
         (∀ co cp, convReadings (o.getD []) = Except.ok co →
            convReadings (p.getD []) = Except.ok cp →
            ∃ e, pl co cp (gp.getD ["V0", "Vp"]) c = Except.error e)) :
    ∃ m, fluid_calculate pl o p gp c u = ⟨FCResponse.err m, [], []⟩ := by
  by_cases ho : o.getD [] = []
  · exact ⟨"No readings provided", by unfold fluid_calculate; simp [ho]⟩
  by_cases hp : p.getD [] = []
  · exact ⟨"No readings provided", by unfold fluid_calculate; simp [hp]⟩
  by_cases hl : (o.getD []).length = (p.getD []).length
  · rcases hco : convReadings (o.getD []) with e | co
    · exact ⟨"Invalid reading format. All values must be numbers.",
        by unfold fluid_calculate; simp [ho, hp, hl, hco]⟩
    rcases hcp : convReadings (p.getD []) with e | cp
    · exact ⟨"Invalid reading format. All values must be numbers.",
        by unfold fluid_calculate; simp [ho, hp, hl, hco, hcp]⟩
    have hple : ∃ e, pl co cp (gp.getD ["V0", "Vp"]) c = Except.error e := by
      rcases h with h | h | h | ⟨e, h⟩ | ⟨e, h⟩ | h
      · exact absurd h ho
      · exact absurd h hp
      · exact absurd hl h
      · rw [hco] at h; exact absurd h (by simp)
      · rw [hcp] at h; exact absurd h (by simp)
      · exact h co cp hco hcp
    obtain ⟨e, he⟩ := hple
    exact ⟨e, by unfold fluid_calculate; simp [ho, hp, hl, hco, hcp, he]⟩
  · exact ⟨"Mismatched number of orifice and pitot readings",
      by unfold fluid_calculate; simp [ho, hp, hl]⟩

/-- Witness for C5: well-formed readings but a pipeline that fails (as a
renderer/report stage would) yield an error-only, record-free outcome. -/
theorem fluid_calculate_failure_error_only_witness :
    ∃ m, fluid_calculate (fun _ _ _ _ => Except.error "RenderError")
        (some [PVal.list [PVal.num (PFloat.finite 4), PVal.num (PFloat.finite 4)]])
        (some [PVal.list [PVal.num (PFloat.finite 2), PVal.num (PFloat.finite 2)]])
        none none 3 = ⟨FCResponse.err m, [], []⟩ :=
  fluid_calculate_failure_error_only (fun _ _ _ _ => Except.error "RenderError")
    (some [PVal.list [PVal.num (PFloat.finite 4), PVal.num (PFloat.finite 4)]])
    (some [PVal.list [PVal.num (PFloat.finite 2), PVal.num (PFloat.finite 2)]])
    none none 3
    (Or.inr (Or.inr (Or.inr (Or.inr (Or.inr
      (fun _ _ _ _ => ⟨"RenderError", rfl⟩))))))

/-- C4: when the conversion comprehension succeeds, it returns one
two-float tuple per input element, in input order: the i-th output tuple is
exactly the float conversion of the first and second components of the i-th
input element. -/
theorem convReadings_ok_pointwise (rs : List PVal) (out : List (PFloat × PFloat))
    (h : convReadings rs = Except.ok out) :
    out.length = rs.length ∧
      ∀ (i : ℕ) (hi : i < rs.length) (ho : i < out.length),
        convReading (rs.get ⟨i, hi⟩) = Except.ok (out.get ⟨i, ho⟩) := by
  induction rs generalizing out with
  | nil =>
    unfold convReadings at h
    cases h
    exact ⟨rfl, fun i hi => absurd hi (by simp)⟩
  | cons r rs ih =>
    unfold convReadings at h
    rcases hc : convReading r with e | pr
    · rw [hc] at h; cases h
    rw [hc] at h
    rcases hcs : convReadings rs with e | ps
    · rw [hcs] at h; cases h
    rw [hcs] at h
    simp only [Except.ok.injEq] at h
    subst h
    obtain ⟨hlen, hidx⟩ := ih ps hcs
    refine ⟨by simp [hlen], ?_⟩
    intro i hi ho
    cases i with
    | zero => simpa using hc
    | succ j =>
      have hj : j < rs.length := by simpa using hi
      have hj' : j < ps.length := by simpa [hlen] using ho
      simpa using hidx j hj hj'

/-- Witness for C4 on two concrete readings (a boolean converts via
Python's `float` to `1.0`). -/
theorem convReadings_ok_pointwise_witness :
    convReadings
        [PVal.list [PVal.num (PFloat.finite 1), PVal.num (PFloat.finite 2)],
         PVal.list [PVal.bool true, PVal.num (PFloat.finite 4)]] =
      Except.ok [(PFloat.finite 1, PFloat.finite 2),
                 (PFloat.finite 1, PFloat.finite 4)] ∧
    ([(PFloat.finite 1, PFloat.finite 2),
      (PFloat.finite 1, PFloat.finite 4)] : List (PFloat × PFloat)).length =
      ([PVal.list [PVal.num (PFloat.finite 1), PVal.num (PFloat.finite 2)],
        PVal.list [PVal.bool true, PVal.num (PFloat.finite 4)]] : List PVal).length := by
  have h : convReadings
      [PVal.list [PVal.num (PFloat.finite 1), PVal.num (PFloat.finite 2)],
       PVal.list [PVal.bool true, PVal.num (PFloat.finite 4)]] =
      Except.ok [(PFloat.finite 1, PFloat.finite 2),
                 (PFloat.finite 1, PFloat.finite 4)] := by decide
  exact ⟨h, (convReadings_ok_pointwise _ _ h).1⟩

/-- A failing string parse raises exactly `ValueError`. -/
theorem parseSigned_error_eq (neg : Bool) (body : List Char) (e : PyExc)
    (h : parseSigned neg body = Except.error e) : e = PyExc.valueError := by
  unfold parseSigned at h
  split at h
  · cases h
  · split at h
    · cases h
    · split at h
      · cases h
      · cases h; rfl

/-- `float(s)` on a string can only fail with `ValueError`. -/
theorem parsePyFloat_error_eq (s : String) (e : PyExc)
    (h : parsePyFloat s = Except.error e) : e = PyExc.valueError := by
  unfold parsePyFloat at h
  split at h <;> exact parseSigned_error_eq _ _ _ h

/-- A failing `float(x)` conversion raises `ValueError` or `TypeError`,
never `IndexError`. -/
theorem pyFloat_error_classify (v : PVal) (e : PyExc)
    (h : pyFloat v = Except.error e) :
    e = PyExc.valueError ∨ e = PyExc.typeError := by
  cases v with
  | num f => simp [pyFloat] at h
  | str s => exact Or.inl (parsePyFloat_error_eq s e (by simpa [pyFloat] using h))
  | bool b => simp [pyFloat] at h
  | null =>
    simp only [pyFloat, Except.error.injEq] at h
    exact Or.inr h.symm
  | list vs =>
    simp only [pyFloat, Except.error.injEq] at h
    exact Or.inr h.symm

/-- C10: `fluid_calculate` validation accepts list elements with more than
two components — whenever the first two components convert to floats the
element is accepted, silently truncated to those first two values — and a
list element is rejected only for a missing component (`IndexError`, fewer
than two components) or a non-numeric component among the first two
(`ValueError` or `TypeError`). -/
theorem element_truncation_and_rejection :
    (∀ (a b : PVal) (rest : List PVal) (x y : PFloat),
        pyFloat a = Except.ok x → pyFloat b = Except.ok y →
        convReading (PVal.list (a :: b :: rest)) = Except.ok (x, y)) ∧
    (∀ (vs : List PVal) (e : PyExc),
        convReading (PVal.list vs) = Except.error e →
        (e = PyExc.indexError ∧ vs.length < 2) ∨
          ((e = PyExc.valueError ∨ e = PyExc.typeError) ∧
            ∃ (i : ℕ) (hi : i < vs.length), i < 2 ∧
              pyFloat (vs.get ⟨i, hi⟩) = Except.error e)) := by
  constructor
  · intro a b rest x y hx hy
    unfold convReading
    simp [pyIndex, hx, hy]
  · intro vs e h
    rcases vs with _ | ⟨a, vs'⟩
    · left
      unfold convReading at h
      simp only [pyIndex, List.get?, Except.error.injEq] at h
      exact ⟨h.symm, by simp⟩
    rcases vs' with _ | ⟨b, rest⟩
    · unfold convReading at h
      simp only [pyIndex, List.get?] at h
      rcases hfa : pyFloat a with ea | x
      · rw [hfa] at h
        simp only [Except.error.injEq] at h
        obtain rfl := h
        exact Or.inr ⟨pyFloat_error_classify a _ hfa, 0, by simp, by simp, hfa⟩
      · rw [hfa] at h
        simp only [Except.error.injEq] at h
        exact Or.inl ⟨h.symm, by simp⟩
    · unfold convReading at h
      simp only [pyIndex, List.get?] at h
      rcases hfa : pyFloat a with ea | x
      · rw [hfa] at h
        simp only [Except.error.injEq] at h
        obtain rfl := h
        exact Or.inr ⟨pyFloat_error_classify a _ hfa, 0, by simp, by simp, hfa⟩
      · rw [hfa] at h
        rcases hfb : pyFloat b with eb | y
        · rw [hfb] at h
          simp only [Except.error.injEq] at h
          obtain rfl := h
          exact Or.inr ⟨pyFloat_error_classify b _ hfb, 1, by simp, by simp, hfb⟩
        · rw [hfb] at h
          cases h

/-- Witness for C10: a three-component element whose first two components
are numeric is accepted and truncated to its first two values. -/
theorem element_truncation_and_rejection_witness :
    pyFloat (PVal.num (PFloat.finite 3)) = Except.ok (PFloat.finite 3) ∧
    pyFloat (PVal.num (PFloat.finite 4)) = Except.ok (PFloat.finite 4) ∧
    convReading (PVal.list [PVal.num (PFloat.finite 3), PVal.num (PFloat.finite 4), PVal.null]) =
      Except.ok (PFloat.finite 3, PFloat.finite 4) :=
  ⟨rfl, rfl,
   element_truncation_and_rejection.1 (PVal.num (PFloat.finite 3))
     (PVal.num (PFloat.finite 4)) [PVal.null] (PFloat.finite 3) (PFloat.finite 4) rfl rfl⟩

/-- C3 counterexample: an element carrying Infinity is NOT rejected —
`float(inf)` succeeds, so with a stub pipeline the request reaches the
pipeline and returns a success response instead of failing with a
`ValidationError` before computation. -/
theorem nonfinite_reading_not_rejected :
    convReading (PVal.list [PVal.num PFloat.inf, PVal.num (PFloat.finite 1)]) =
      Except.ok (PFloat.inf, PFloat.finite 1) ∧
    fluid_calculate (fun _ _ _ _ => Except.ok ⟨[], PFloat.nan, "m", "g", "d"⟩)
        (some [PVal.list [PVal.num PFloat.inf, PVal.num (PFloat.finite 1)]])
        (some [PVal.list [PVal.num (PFloat.finite 1), PVal.num (PFloat.finite 1)]])
        none none 0 =
      ⟨FCResponse.ok [] PFloat.nan "m" "g" "d",
       [⟨0, "Fluid Calculation", "Pitot Tube experiment with 1 readings"⟩],
       [⟨0, "Pitot Tube Experiment", "Cv = V0/Vp", 0, 0, PFloat.nan⟩]⟩ := by
  exact ⟨rfl, rfl⟩

/-- C3 amended: validation fails only when an element cannot be parsed as a
pair of numbers at all (missing component or non-numeric value); numeric
pairs are accepted whether finite or not — infinities and NaN pass the
float conversion unchanged. -/
theorem validation_accepts_any_numeric_pair (f g : PFloat) (rest : List PVal) :
    convReading (PVal.list (PVal.num f :: PVal.num g :: rest)) = Except.ok (f, g) := by
  rfl

/-- C7: omitting `graph_params` is the same as supplying the default label
pair `["V0", "Vp"]` (routes.py line 111), and with `constants` omitted no
override is applied — every `PhysicalConstants` key keeps its default
value (constants merging modelled from the spec, `fluid_mechanics.py`
being absent). -/
theorem omitted_params_use_defaults :
    (∀ (pl : Pipeline) (o p : Option (List PVal))
        (c : Option (List (String × ℚ))) (u : ℕ),
        fluid_calculate pl o p none c u =
          fluid_calculate pl o p (some ["V0", "Vp"]) c u) ∧
    (∀ d : PhysicalConstants, mergeConstants d none = d) ∧
    (∀ a_ratio : ℚ,
        mergeConstants (defaultConstants a_ratio) none =
          ⟨981 / 100, 1000, 61 / 100, a_ratio⟩) := by
  exact ⟨fun pl o p c u => rfl, fun d => rfl, fun a_ratio => rfl⟩

/-- C8: on every successful run — validation passed and the pipeline
returned a result — exactly one `Calculation` record is persisted, with
`mass_needed` equal to the returned `mean_cv` and reagent label
`'Pitot Tube Experiment'`, alongside one activity-log entry; the success
response echoes the same `mean_cv`. -/
theorem success_persists_mean_cv (pl : Pipeline) (o p : Option (List PVal))
    (gp : Option (List String)) (c : Option (List (String × ℚ))) (u : ℕ)
    (co cp : List (PFloat × PFloat)) (res : PipeResult)
    (ho : o.getD [] ≠ []) (hp : p.getD [] ≠ [])
    (hl : (o.getD []).length = (p.getD []).length)
    (hco : convReadings (o.getD []) = Except.ok co)
    (hcp : convReadings (p.getD []) = Except.ok cp)
    (hpl : pl co cp (gp.getD ["V0", "Vp"]) c = Except.ok res) :
    fluid_calculate pl o p gp c u =
      ⟨FCResponse.ok res.results res.mean_cv res.model_calculation
         res.graph_base64 res.pdf_base64,
       [⟨u, "Fluid Calculation",
         "Pitot Tube experiment with " ++ toString co.length ++ " readings"⟩],
       [⟨u, "Pitot Tube Experiment", "Cv = V0/Vp", 0, 0, res.mean_cv⟩]⟩ := by
  unfold fluid_calculate
  simp [ho, hp, hl, hco, hcp, hpl]

/-- Witness for C8 with one concrete reading pair and a stub pipeline
returning `mean_cv = 2`. -/
theorem success_persists_mean_cv_witness :
    fluid_calculate (fun _ _ _ _ => Except.ok ⟨[], PFloat.finite 2, "m", "g", "d"⟩)
        (some [PVal.list [PVal.num (PFloat.finite 4), PVal.num (PFloat.finite 4)]])
        (some [PVal.list [PVal.num (PFloat.finite 2), PVal.num (PFloat.finite 2)]])
        none none 5 =
      ⟨FCResponse.ok [] (PFloat.finite 2) "m" "g" "d",
       [⟨5, "Fluid Calculation", "Pitot Tube experiment with 1 readings"⟩],
       [⟨5, "Pitot Tube Experiment", "Cv = V0/Vp", 0, 0, PFloat.finite 2⟩]⟩ :=
  success_persists_mean_cv
    (fun _ _ _ _ => Except.ok ⟨[], PFloat.finite 2, "m", "g", "d"⟩)
    (some [PVal.list [PVal.num (PFloat.finite 4), PVal.num (PFloat.finite 4)]])
    (some [PVal.list [PVal.num (PFloat.finite 2), PVal.num (PFloat.finite 2)]])
    none none 5
    [(PFloat.finite 4, PFloat.finite 4)] [(PFloat.finite 2, PFloat.finite 2)]
    ⟨[], PFloat.finite 2, "m", "g", "d"⟩
    (List.cons_ne_nil _ _) (List.cons_ne_nil _ _) rfl rfl rfl rfl

/-- C6: the spec-modelled pipeline is a pure function of its inputs — two
invocations with equal readings, equal labels, equal constants (override
and area-ratio default) produce the same `equation_text`
(`model_calculation`) for any fixed numeric formatter, the same numeric
results (calibration points, `mean_cv`, exclusion count, fit
coefficients), and, for any fixed deterministic renderer over the report
data, the same rendered artifact. -/
theorem pipeline_deterministic (o₁ o₂ p₁ p₂ : List (ℚ × ℚ))
    (l₁ l₂ : List String) (c₁ c₂ : Option (List (String × ℚ))) (a₁ a₂ : ℚ)
    (ho : o₁ = o₂) (hp : p₁ = p₂) (hl : l₁ = l₂) (hc : c₁ = c₂) (ha : a₁ = a₂) :
    (∀ fmt : ℝ → String,
        (process_experiment_data o₁ p₁ l₁ c₁ a₁).map
            (fun r => equationText fmt r.slope r.intercept) =
          (process_experiment_data o₂ p₂ l₂ c₂ a₂).map
            (fun r => equationText fmt r.slope r.intercept)) ∧
    (process_experiment_data o₁ p₁ l₁ c₁ a₁).map
        (fun r => (r.points, r.mean_cv, r.excluded, r.slope, r.intercept, r.r_squared)) =
      (process_experiment_data o₂ p₂ l₂ c₂ a₂).map
        (fun r => (r.points, r.mean_cv, r.excluded, r.slope, r.intercept, r.r_squared)) ∧
    (∀ render : ExperimentReportM → String,
        (process_experiment_data o₁ p₁ l₁ c₁ a₁).map render =
          (process_experiment_data o₂ p₂ l₂ c₂ a₂).map render) := by
  subst ho; subst hp; subst hl; subst hc; subst ha
  exact ⟨fun _ => rfl, rfl, fun _ => rfl⟩

/-- Witness for C6 at a concrete invocation repeated twice. -/
theorem pipeline_deterministic_witness :
    (process_experiment_data [(2, 0), (3, 0)] [(1, 0), (2, 0)] ["V0", "Vp"] none 0).map
        (fun r => (r.points, r.mean_cv, r.excluded, r.slope, r.intercept, r.r_squared)) =
      (process_experiment_data [(2, 0), (3, 0)] [(1, 0), (2, 0)] ["V0", "Vp"] none 0).map
        (fun r => (r.points, r.mean_cv, r.excluded, r.slope, r.intercept, r.r_squared)) :=
  (pipeline_deterministic [(2, 0), (3, 0)] [(2, 0), (3, 0)] [(1, 0), (2, 0)] [(1, 0), (2, 0)]
    ["V0", "Vp"] ["V0", "Vp"] none none 0 0 rfl rfl rfl rfl rfl).2.1
